import Mathlib

/-!
Verification of the update-orchestration and alerting engine of the
`local_stock_db` repository, as a shallow embedding in Lean 4.

The embedding follows the Python source files:
  - `src/config.py`                      (`Config`)
  - `src/data_fetcher/scheduler.py`      (`DataScheduler`)
  - `src/data_fetcher/akshare_client.py` (`AKShareClient`)
  - `src/database/models.py`             (`DatabaseManager`)

Machine floats of the source are modelled as exact rationals (`ℚ`);
wall-clock values as explicit day-of-week numbers and time-of-day
records; the SQLite tables as Lean lists of rows; exceptions as
explicit outcome flags threaded through the control flow they actually
take in the source.
-/

namespace StockDB

/-! ## Market Calendar (`DataScheduler._is_market_hours`) -/

/-- A Python `datetime.time` value: hour, minute, second, microsecond. -/
structure TimeOfDay where
  hour : Nat
  minute : Nat
  second : Nat
  microsecond : Nat
deriving DecidableEq, Repr

/-- Python `time` comparison is lexicographic on
(hour, minute, second, microsecond). -/
def TimeOfDay.le (a b : TimeOfDay) : Bool :=
  if a.hour = b.hour then
    if a.minute = b.minute then
      if a.second = b.second then decide (a.microsecond ≤ b.microsecond)
      else decide (a.second < b.second)
    else decide (a.minute < b.minute)
  else decide (a.hour < b.hour)

/-- A well-formed time-of-day, as `datetime.time` guarantees. -/
def TimeOfDay.valid (t : TimeOfDay) : Prop :=
  t.hour < 24 ∧ t.minute < 60 ∧ t.second < 60 ∧ t.microsecond < 1000000

instance (t : TimeOfDay) : Decidable t.valid := by
  unfold TimeOfDay.valid; infer_instance

/-- Microseconds since midnight; a numeric view of a time of day. -/
def TimeOfDay.toMicros (t : TimeOfDay) : Nat :=
  ((t.hour * 60 + t.minute) * 60 + t.second) * 1000000 + t.microsecond

/-- On valid times, the lexicographic comparison agrees with the
microseconds-since-midnight comparison. -/
theorem TimeOfDay.le_iff_toMicros {a b : TimeOfDay}
    (ha : a.valid) (hb : b.valid) :
    a.le b = true ↔ a.toMicros ≤ b.toMicros := by
  obtain ⟨ha1, ha2, ha3, ha4⟩ := ha
  obtain ⟨hb1, hb2, hb3, hb4⟩ := hb
  unfold TimeOfDay.le TimeOfDay.toMicros
  split
  · split
    · split
      · simp only [decide_eq_true_eq]
        omega
      · simp only [decide_eq_true_eq]
        omega
    · simp only [decide_eq_true_eq]
      omega
  · simp only [decide_eq_true_eq]
    omega

/-- Session boundary `now.replace(hour=9, minute=30, ...)`. -/
def morning_start : TimeOfDay := ⟨9, 30, 0, 0⟩

/-- Session boundary `now.replace(hour=11, minute=30, ...)`. -/
def morning_end : TimeOfDay := ⟨11, 30, 0, 0⟩

/-- Session boundary `now.replace(hour=13, minute=0, ...)`. -/
def afternoon_start : TimeOfDay := ⟨13, 0, 0, 0⟩

/-- Session boundary `now.replace(hour=15, minute=0, ...)`. -/
def afternoon_end : TimeOfDay := ⟨15, 0, 0, 0⟩

/-- Embeds `DataScheduler._is_market_hours`.  `weekday` follows Python
`datetime.weekday()`: Monday = 0 … Sunday = 6.  The source returns
`False` on `weekday >= 5`, otherwise tests the two inclusive session
windows 09:30–11:30 and 13:00–15:00 by `time` comparison. -/
def is_market_hours (weekday : Nat) (current_time : TimeOfDay) : Bool :=
  if weekday ≥ 5 then false
  else
    (TimeOfDay.le morning_start current_time
        && TimeOfDay.le current_time morning_end)
      || (TimeOfDay.le afternoon_start current_time
        && TimeOfDay.le current_time afternoon_end)

/-- C2: `is_market_hours` returns true exactly on Monday–Friday with the
time of day inside 09:30:00–11:30:00 or 13:00:00–15:00:00, endpoints
included; in particular 09:30:00 and 11:30:00 are open and 11:30:01 is
closed on a weekday. -/
theorem market_session_spec (weekday : Nat) (t : TimeOfDay) (hv : t.valid) :
    (is_market_hours weekday t = true ↔
      weekday < 5 ∧
        ((34200000000 ≤ t.toMicros ∧ t.toMicros ≤ 41400000000) ∨
         (46800000000 ≤ t.toMicros ∧ t.toMicros ≤ 54000000000))) ∧
    is_market_hours 0 ⟨9, 30, 0, 0⟩ = true ∧
    is_market_hours 0 ⟨11, 30, 0, 0⟩ = true ∧
    is_market_hours 0 ⟨11, 30, 1, 0⟩ = false ∧
    is_market_hours 5 ⟨10, 0, 0, 0⟩ = false ∧
    is_market_hours 6 ⟨10, 0, 0, 0⟩ = false := by
  refine ⟨?_, by decide, by decide, by decide, by decide, by decide⟩
  have hms : morning_start.valid := by decide
  have hme : morning_end.valid := by decide
  have has : afternoon_start.valid := by decide
  have hae : afternoon_end.valid := by decide
  unfold is_market_hours
  split
  · simp only [Bool.false_eq_true, false_iff]
    intro h
    omega
  · simp only [Bool.or_eq_true, Bool.and_eq_true,
      TimeOfDay.le_iff_toMicros hms hv, TimeOfDay.le_iff_toMicros hv hme,
      TimeOfDay.le_iff_toMicros has hv, TimeOfDay.le_iff_toMicros hv hae]
    have hms' : morning_start.toMicros = 34200000000 := by decide
    have hme' : morning_end.toMicros = 41400000000 := by decide
    have has' : afternoon_start.toMicros = 46800000000 := by decide
    have hae' : afternoon_end.toMicros = 54000000000 := by decide
    rw [hms', hme', has', hae']
    constructor
    · intro h
      exact ⟨by omega, h⟩
    · intro h
      exact h.2

/-- Witness for C2: the theorem applied at Wednesday 10:00:00. -/
theorem market_session_spec_witness :
    is_market_hours 2 ⟨10, 0, 0, 0⟩ = true ∧
      (2 < 5 ∧ ((34200000000 ≤ (TimeOfDay.mk 10 0 0 0).toMicros ∧
        (TimeOfDay.mk 10 0 0 0).toMicros ≤ 41400000000) ∨
        (46800000000 ≤ (TimeOfDay.mk 10 0 0 0).toMicros ∧
        (TimeOfDay.mk 10 0 0 0).toMicros ≤ 54000000000))) :=
  ⟨by decide,
    (market_session_spec 2 ⟨10, 0, 0, 0⟩ (by decide)).1.mp (by decide)⟩

/-! ## Configuration (`src/config.py`), default values -/

namespace Config

/-- Default of `Config.REALTIME_UPDATE_INTERVAL` (seconds). -/
def REALTIME_UPDATE_INTERVAL : Nat := 10

/-- Default of `Config.STOCK_INFO_UPDATE_INTERVAL` (seconds). -/
def STOCK_INFO_UPDATE_INTERVAL : Nat := 3600

/-- Default of `Config.PRICE_CHANGE_THRESHOLD` (percent). -/
def PRICE_CHANGE_THRESHOLD : ℚ := 5

/-- The literal `Config.DEFAULT_STOCK_SYMBOLS` list from `src/config.py`,
in source order. -/
def DEFAULT_STOCK_SYMBOLS : List String :=
  ["000001", "000002", "000858", "002415", "600036",
   "600519", "600887", "000858", "002142", "300750"]

end Config

/-! ## Alert Engine (`DataScheduler._monitor_alerts`) -/

/-- The two latest-price columns the alert check reads. -/
structure PriceRow where
  symbol : String
  change_percent : ℚ
deriving DecidableEq, Repr

/-- A row of the `price_alerts` table as written by
`DatabaseManager.insert_price_alert`. -/
structure Alert where
  symbol : String
  alert_type : String
  threshold : ℚ
  current_change : ℚ
deriving DecidableEq, Repr

/-- The body of the `for price_data in latest_prices` loop of
`DataScheduler._monitor_alerts` for one row: if
`abs(change_percent) >= threshold` one alert is inserted, with type
`'gain'` when `change_percent > 0` else `'loss'`; otherwise none. -/
def alertsForRow (threshold : ℚ) (price_data : PriceRow) : List Alert :=
  if |price_data.change_percent| ≥ threshold then
    [{ symbol := price_data.symbol,
       alert_type := if price_data.change_percent > 0 then "gain" else "loss",
       threshold := threshold,
       current_change := price_data.change_percent }]
  else []

/-- Embeds `DataScheduler._monitor_alerts`: iterate over the latest
prices, appending the produced alert rows to the `price_alerts` table. -/
def monitor_alerts (threshold : ℚ) (latest_prices : List PriceRow)
    (price_alerts : List Alert) : List Alert :=
  match latest_prices with
  | [] => price_alerts
  | price_data :: rest =>
      monitor_alerts threshold rest
        (price_alerts ++ alertsForRow threshold price_data)

/-- C1: per latest-price row, the evaluation appends exactly one alert
iff `abs(change_percent) ≥ threshold`, the alert type is `gain` when the
change is positive and `loss` otherwise; with the default threshold 5,
change 6.2 gives one `gain` alert, −7.0 one `loss` alert, 4.9 none. -/
theorem alert_evaluation_spec (threshold : ℚ) (price_data : PriceRow)
    (rest : List PriceRow) (price_alerts : List Alert) :
    (monitor_alerts threshold (price_data :: rest) price_alerts
      = monitor_alerts threshold rest
          (price_alerts ++ alertsForRow threshold price_data)) ∧
    ((alertsForRow threshold price_data).length = 1 ↔
      |price_data.change_percent| ≥ threshold) ∧
    ((alertsForRow threshold price_data).length = 0 ↔
      ¬ |price_data.change_percent| ≥ threshold) ∧
    (∀ a ∈ alertsForRow threshold price_data,
      a.alert_type =
        if price_data.change_percent > 0 then "gain" else "loss") ∧
    Config.PRICE_CHANGE_THRESHOLD = 5 ∧
    (alertsForRow 5 ⟨"X", mkRat 31 5⟩ = [⟨"X", "gain", 5, mkRat 31 5⟩]) ∧
    (alertsForRow 5 ⟨"Y", -7⟩ = [⟨"Y", "loss", 5, -7⟩]) ∧
    (alertsForRow 5 ⟨"Z", mkRat 49 10⟩ = []) := by
  refine ⟨rfl, ?_, ?_, ?_, rfl, by decide, by decide, by decide⟩
  · unfold alertsForRow
    split
    · next h => simpa using h
    · next h => simpa using h
  · unfold alertsForRow
    split
    · next h => simpa using h
    · next h => simpa using h
  · intro a ha
    unfold alertsForRow at ha
    split at ha
    · simp only [List.mem_singleton] at ha
      subst ha
      rfl
    · simp at ha

/-- Witness for C1: the theorem applied at threshold 5 and
change percent 6.2 = 31/5. -/
theorem alert_evaluation_spec_witness :
    (alertsForRow 5 ⟨"X", mkRat 31 5⟩).length = 1 :=
  ((alert_evaluation_spec 5 ⟨"X", mkRat 31 5⟩ [] []).2.1).mpr (by decide)

/-! ## Cadence adaptation (`DataScheduler._check_market_hours`) -/

/-- The `realtime_price_update` job as the cadence check sees it: its
current `IntervalTrigger` length in seconds, plus a counter of how many
times `job.modify` has been called (to observe no-ops). -/
structure IntervalJob where
  interval : Nat
  modify_count : Nat
deriving DecidableEq, Repr

/-- Embeds `DataScheduler._check_market_hours`.  The scheduler's
`get_job('realtime_price_update')` may return no job (`none`), in which
case nothing happens.  When the market is open the job is re-triggered
at `cfg_interval` (`Config.REALTIME_UPDATE_INTERVAL`) only if its
current interval differs; when closed, at 300 seconds only if its
current interval differs. -/
def check_market_hours (is_market_open : Bool) (cfg_interval : Nat) :
    Option IntervalJob → Option IntervalJob
  | none => none
  | some job =>
    if is_market_open then
      if job.interval ≠ cfg_interval then
        some { interval := cfg_interval, modify_count := job.modify_count + 1 }
      else some job
    else
      if job.interval ≠ 300 then
        some { interval := 300, modify_count := job.modify_count + 1 }
      else some job

/-- C3: after a run of the session-state check, the price-refresh
cadence equals the configured open-session interval (default 10) when
the session is open and 300 when closed; when the cadence already
matches, the job is returned untouched with no `modify` call. -/
theorem cadence_adaptation_spec (is_market_open : Bool) (cfg_interval : Nat)
    (job : IntervalJob) :
    (check_market_hours is_market_open cfg_interval (some job) =
      some { interval := if is_market_open then cfg_interval else 300,
             modify_count :=
               if job.interval = (if is_market_open then cfg_interval else 300)
               then job.modify_count else job.modify_count + 1 }) ∧
    (job.interval = (if is_market_open then cfg_interval else 300) →
      check_market_hours is_market_open cfg_interval (some job) = some job) ∧
    Config.REALTIME_UPDATE_INTERVAL = 10 := by
  obtain ⟨ji, jc⟩ := job
  refine ⟨?_, ?_, rfl⟩
  · cases is_market_open <;>
      simp only [check_market_hours, if_true, if_false, Bool.false_eq_true]
    · by_cases h : ji = 300 <;> simp_all
    · by_cases h : ji = cfg_interval <;> simp_all
  · intro h
    cases is_market_open <;> simp_all [check_market_hours]

/-- Witness for C3: the theorem applied to a job already at the closed
cadence 300, with the session closed; the run is a no-op. -/
theorem cadence_adaptation_spec_witness :
    check_market_hours false 10 (some ⟨300, 0⟩) = some ⟨300, 0⟩ :=
  (cadence_adaptation_spec false 10 ⟨300, 0⟩).2.1 (by decide)

/-! ## Symbol Registry (`DataScheduler.add_symbol` / `remove_symbol`)

The registry state is `self.symbols_to_monitor`, initialised to
`Config.DEFAULT_STOCK_SYMBOLS.copy()`.  `add_symbol` also fetches and
upserts stock info for the new symbol; that side effect does not touch
the registry state and is modelled in the info-refresh section. -/

/-- Embeds the registry mutation of `DataScheduler.add_symbol`:
append the symbol only if it is not already present. -/
def add_symbol (symbols_to_monitor : List String) (symbol : String) :
    List String :=
  if symbol ∈ symbols_to_monitor then symbols_to_monitor
  else symbols_to_monitor ++ [symbol]

/-- Embeds `DataScheduler.remove_symbol`: Python `list.remove` deletes
the first occurrence, guarded by a membership test. -/
def remove_symbol (symbols_to_monitor : List String) (symbol : String) :
    List String :=
  if symbol ∈ symbols_to_monitor then symbols_to_monitor.erase symbol
  else symbols_to_monitor

/-- A registry mutation, as exposed to the web collaborator. -/
inductive RegistryOp where
  | add (symbol : String)
  | remove (symbol : String)

/-- Apply one registry mutation. -/
def applyOp (symbols_to_monitor : List String) : RegistryOp → List String
  | .add s => add_symbol symbols_to_monitor s
  | .remove s => remove_symbol symbols_to_monitor s

/-- Apply a sequence of registry mutations, oldest first. -/
def applyOps (symbols_to_monitor : List String) (ops : List RegistryOp) :
    List String :=
  ops.foldl applyOp symbols_to_monitor

theorem add_symbol_nodup {l : List String} (s : String) (h : l.Nodup) :
    (add_symbol l s).Nodup := by
  unfold add_symbol
  split
  · exact h
  · next hmem => simp [List.nodup_append, h, hmem]

theorem remove_symbol_nodup {l : List String} (s : String) (h : l.Nodup) :
    (remove_symbol l s).Nodup := by
  unfold remove_symbol
  split
  · exact h.erase s
  · exact h

theorem applyOps_nodup {l : List String} (ops : List RegistryOp)
    (h : l.Nodup) : (applyOps l ops).Nodup := by
  induction ops generalizing l with
  | nil => exact h
  | cons op rest ih =>
      cases op with
      | add s => exact ih (add_symbol_nodup s h)
      | remove s => exact ih (remove_symbol_nodup s h)

/-- Counterexample to C4: the configured initial Monitoring Set
`Config.DEFAULT_STOCK_SYMBOLS` already lists `000858` twice, so in the
initial reachable state the set has a duplicate, and `add("000858")`
followed by `list()` yields that symbol twice, not exactly once. -/
theorem monitoring_set_duplicate_counterexample :
    Config.DEFAULT_STOCK_SYMBOLS.count "000858" = 2 ∧
    ¬ Config.DEFAULT_STOCK_SYMBOLS.Nodup ∧
    (add_symbol Config.DEFAULT_STOCK_SYMBOLS "000858").count "000858" = 2 ∧
    ¬ ((add_symbol Config.DEFAULT_STOCK_SYMBOLS "000858").count "000858"
        = 1) := by
  refine ⟨by decide, by decide, by decide, by decide⟩

/-- C4 (amended): `add` and `remove` preserve freedom from duplicates,
so from any duplicate-free initial Monitoring Set every state reachable
by add/remove sequences has no duplicate symbols, and `add(symbol)`
followed by `list()` yields that symbol exactly once; the configured
default initial set itself breaks the premise by listing `000858`
twice. -/
theorem monitoring_set_nodup_amended (init : List String)
    (ops : List RegistryOp) (symbol : String) (h : init.Nodup) :
    (applyOps init ops).Nodup ∧
    (add_symbol (applyOps init ops) symbol).count symbol = 1 := by
  have hnd : (applyOps init ops).Nodup := applyOps_nodup ops h
  refine ⟨hnd, ?_⟩
  unfold add_symbol
  split
  · next hmem => exact List.count_eq_one_of_mem hnd hmem
  · next hmem =>
      rw [List.count_append, List.count_eq_zero_of_not_mem hmem]
      simp

/-- Witness for the amended C4: a duplicate-free two-symbol registry,
one add and one remove, then adding `000002`. -/
theorem monitoring_set_nodup_amended_witness :
    (applyOps ["000001", "600519"]
        [RegistryOp.add "300750", RegistryOp.remove "600519"]).Nodup ∧
    (add_symbol
        (applyOps ["000001", "600519"]
          [RegistryOp.add "300750", RegistryOp.remove "600519"])
        "000002").count "000002" = 1 :=
  monitoring_set_nodup_amended ["000001", "600519"]
    [RegistryOp.add "300750", RegistryOp.remove "600519"] "000002" (by decide)

/-! ## Info refresh (`DataScheduler._update_stock_info` and
`DataScheduler._initial_stock_info_update`)

`AKShareClient.get_stock_info` catches every provider exception inside
the client and returns `None`, so from the scheduler's viewpoint a fetch
yields `Option StockInfo` and never raises; a provider error and a
symbol with no data are both `none`.  `DatabaseManager.insert_stock_info`
can raise a store error; this is modelled by an `upsert_ok` flag per
symbol.  In `_update_stock_info` the `try` wraps the whole `for` loop,
so a raised store error aborts the remaining symbols; in
`_initial_stock_info_update` the `try` is inside the loop, so any
failure is local to its symbol. -/

/-- The stock-info record upserted per symbol (remaining columns carry
no logic and are untouched by the claims). -/
structure StockInfo where
  symbol : String
  name : String
  market : String
deriving DecidableEq, Repr

/-- Per-symbol environment for one info-refresh run: the fetch result
and whether the upsert succeeds (raises a store error otherwise). -/
structure SymbolEnv where
  fetch : Option StockInfo
  upsert_ok : Bool
deriving DecidableEq, Repr

/-- Embeds `DataScheduler._update_stock_info` (the periodic hourly job):
returns the symbols whose info was successfully upserted, in order.
The single `try` around the loop means a store error while upserting
one symbol aborts the rest of the run. -/
def update_stock_info : List (String × SymbolEnv) → List String
  | [] => []
  | (symbol, env) :: rest =>
    match env.fetch with
    | none => update_stock_info rest
    | some _ =>
      if env.upsert_ok then symbol :: update_stock_info rest
      else []

/-- Embeds `DataScheduler._initial_stock_info_update` (the one-time
startup refresh): the per-symbol `try`/`except` makes every failure
local to its symbol. -/
def initial_stock_info_update : List (String × SymbolEnv) → List String
  | [] => []
  | (symbol, env) :: rest =>
    match env.fetch with
    | none => initial_stock_info_update rest
    | some _ =>
      if env.upsert_ok then symbol :: initial_stock_info_update rest
      else initial_stock_info_update rest

/-- Counterexample to C5: in the periodic info-refresh job, a store
error while upserting the second of three symbols prevents the third
from being upserted in the same run. -/
theorem info_refresh_isolation_counterexample :
    update_stock_info
        [("000001", ⟨some ⟨"000001", "PAB", "SZ"⟩, true⟩),
         ("000002", ⟨some ⟨"000002", "VKE", "SZ"⟩, false⟩),
         ("600036", ⟨some ⟨"600036", "CMB", "SH"⟩, true⟩)]
      = ["000001"] ∧
    "600036" ∉ update_stock_info
        [("000001", ⟨some ⟨"000001", "PAB", "SZ"⟩, true⟩),
         ("000002", ⟨some ⟨"000002", "VKE", "SZ"⟩, false⟩),
         ("600036", ⟨some ⟨"600036", "CMB", "SH"⟩, true⟩)] := by
  refine ⟨by decide, by decide⟩

theorem initial_stock_info_update_append
    (xs ys : List (String × SymbolEnv)) :
    initial_stock_info_update (xs ++ ys)
      = initial_stock_info_update xs ++ initial_stock_info_update ys := by
  induction xs with
  | nil => rfl
  | cons p rest ih =>
      obtain ⟨s, env⟩ := p
      rcases hf : env.fetch with _ | i
      · simp only [List.cons_append, initial_stock_info_update, hf,
          List.append_eq, ih]
      · simp only [List.cons_append, initial_stock_info_update, hf,
          List.append_eq, ih]
        split <;> simp

/-- C5 (amended): in the periodic info-refresh job a provider failure
(fetch returning nothing) at any position leaves the later symbols
unaffected, but a store error while upserting a fetched symbol aborts
every later symbol of that run; in the one-time initial refresh every
failure, of either kind, is local to its symbol (the run factors
through list concatenation). -/
theorem info_refresh_isolation_amended (before after : List (String × SymbolEnv))
    (symbol : String) (env : SymbolEnv) (info : StockInfo)
    (hfetch : env.fetch = none) :
    (update_stock_info (before ++ (symbol, env) :: after)
      = update_stock_info (before ++ after)) ∧
    (∀ env2 : SymbolEnv, env2.fetch = some info → env2.upsert_ok = false →
      update_stock_info ((symbol, env2) :: after) = []) ∧
    (∀ env2 : SymbolEnv,
      initial_stock_info_update (before ++ (symbol, env2) :: after)
        = initial_stock_info_update before
            ++ initial_stock_info_update [(symbol, env2)]
            ++ initial_stock_info_update after) := by
  refine ⟨?_, ?_, ?_⟩
  · induction before with
    | nil => simp [update_stock_info, hfetch]
    | cons p rest ih =>
        obtain ⟨s, e⟩ := p
        rcases hf : e.fetch with _ | i
        · simp only [List.cons_append, update_stock_info, hf,
            List.append_eq, ih]
        · simp only [List.cons_append, update_stock_info, hf,
            List.append_eq, ih]
  · intro env2 hf hu
    unfold update_stock_info
    rw [hf, hu]
    simp
  · intro env2
    rw [initial_stock_info_update_append,
      show ((symbol, env2) :: after)
          = [(symbol, env2)] ++ after from rfl,
      initial_stock_info_update_append]
    simp [List.append_assoc]

/-- Witness for the amended C5: one provider failure in the middle of a
three-symbol run; the periodic job still processes the last symbol. -/
theorem info_refresh_isolation_amended_witness :
    update_stock_info
        [("000001", ⟨some ⟨"000001", "PAB", "SZ"⟩, true⟩),
         ("000002", ⟨none, true⟩),
         ("600036", ⟨some ⟨"600036", "CMB", "SH"⟩, true⟩)]
      = update_stock_info
        [("000001", ⟨some ⟨"000001", "PAB", "SZ"⟩, true⟩),
         ("600036", ⟨some ⟨"600036", "CMB", "SH"⟩, true⟩)] :=
  (info_refresh_isolation_amended
      [("000001", ⟨some ⟨"000001", "PAB", "SZ"⟩, true⟩)]
      [("600036", ⟨some ⟨"600036", "CMB", "SH"⟩, true⟩)]
      "000002" ⟨none, true⟩ ⟨"000002", "VKE", "SZ"⟩
      (by decide)).1

/-! ## Provider client (`AKShareClient.get_realtime_price(s)`) and price
refresh (`DataScheduler._update_realtime_prices`)

The provider table `ak.stock_zh_a_spot_em()` is modelled as a list of
rows keyed by the 代码 (symbol) column; `rt_data[rt_data['代码'] ==
symbol].iloc[0]` is the first row with that key. -/

/-- A provider quote row; fields follow the columns the client reads:
名称, 最新价, 今开, 最高, 最低, 昨收, 成交量, 成交额.  The `pd.notna`
fallbacks for volume and amount are absorbed into the field values. -/
structure QuoteRow where
  name : String
  latest_price : ℚ
  open_price : ℚ
  high_price : ℚ
  low_price : ℚ
  prev_close : ℚ
  volume : Nat
  amount : ℚ
deriving DecidableEq, Repr

/-- The `price_data` record both fetchers build. -/
structure PriceData where
  symbol : String
  current_price : ℚ
  open_price : ℚ
  high_price : ℚ
  low_price : ℚ
  close_price : ℚ
  volume : Nat
  amount : ℚ
  change_amount : ℚ
  change_percent : ℚ
deriving DecidableEq, Repr

/-- The record construction shared by `get_realtime_price` and
`get_realtime_prices`: `change_percent = (change_amount / close_price)
* 100 if close_price != 0 else 0`. -/
def mkPriceData (symbol : String) (row : QuoteRow) : PriceData :=
  let current_price := row.latest_price
  let close_price := row.prev_close
  let change_amount := current_price - close_price
  let change_percent :=
    if close_price ≠ 0 then change_amount / close_price * 100 else 0
  { symbol := symbol,
    current_price := current_price,
    open_price := row.open_price,
    high_price := row.high_price,
    low_price := row.low_price,
    close_price := close_price,
    volume := row.volume,
    amount := row.amount,
    change_amount := change_amount,
    change_percent := change_percent }

/-- First provider row whose 代码 column equals the symbol, as selected
by `rt_data[rt_data['代码'] == symbol]` plus `.iloc[0]`; empty selection
is `none`. -/
def findQuote (rt_data : List (String × QuoteRow)) (symbol : String) :
    Option QuoteRow :=
  (rt_data.find? (fun r => r.1 = symbol)).map (fun r => r.2)

/-- Embeds `AKShareClient.get_realtime_price` (single symbol): `None`
when the table is empty or the symbol is absent — both give an empty
selection here. -/
def get_realtime_price (rt_data : List (String × QuoteRow))
    (symbol : String) : Option PriceData :=
  (findQuote rt_data symbol).map (mkPriceData symbol)

/-- Embeds `AKShareClient.get_realtime_prices` (batch): requested
symbols absent from the table are skipped (`continue`), present ones
contribute one `price_data` each, in request order. -/
def get_realtime_prices (rt_data : List (String × QuoteRow))
    (symbols : List String) : List PriceData :=
  symbols.filterMap
    (fun symbol => (findQuote rt_data symbol).map (mkPriceData symbol))

/-- A `price_history` row inserted by `DataScheduler._update_price_history`. -/
structure HistoryPoint where
  symbol : String
  price : ℚ
  change_percent : ℚ
  volume : Nat
deriving DecidableEq, Repr

/-- Projection of a snapshot to its history row. -/
def toHistoryPoint (price_data : PriceData) : HistoryPoint :=
  { symbol := price_data.symbol,
    price := price_data.current_price,
    change_percent := price_data.change_percent,
    volume := price_data.volume }

/-- The two tables the price-refresh job appends to. -/
structure PriceStore where
  stock_prices : List PriceData
  price_history : List HistoryPoint
deriving DecidableEq, Repr

/-- Embeds `DataScheduler._update_realtime_prices`: outside market
hours nothing happens; otherwise the batch fetch runs, an empty result
returns early with a warning, and each returned record is appended to
`stock_prices` and projected into `price_history`.  Every branch is
inside the job's `try`, so the job never raises to its caller; this
embedding is a total function. -/
def update_realtime_prices (is_open : Bool)
    (rt_data : List (String × QuoteRow)) (symbols : List String)
    (st : PriceStore) : PriceStore :=
  if !is_open then st
  else
    let prices := get_realtime_prices rt_data symbols
    if prices.isEmpty then st
    else
      { stock_prices := st.stock_prices ++ prices,
        price_history := st.price_history ++ prices.map toHistoryPoint }

/-- When the session is open, the price-refresh run always appends the
fetched batch: the early return on an empty batch appends nothing,
which coincides with appending the empty batch. -/
theorem update_realtime_prices_open (rt_data : List (String × QuoteRow))
    (symbols : List String) (st : PriceStore) :
    update_realtime_prices true rt_data symbols st =
      { stock_prices :=
          st.stock_prices ++ get_realtime_prices rt_data symbols,
        price_history :=
          st.price_history
            ++ (get_realtime_prices rt_data symbols).map toHistoryPoint } := by
  unfold update_realtime_prices
  simp only [Bool.not_true]
  cases hp : (get_realtime_prices rt_data symbols).isEmpty
  · simp [hp]
  · have he : get_realtime_prices rt_data symbols = [] := by
      simpa using hp
    simp [hp, he]

theorem get_realtime_prices_symbols (rt_data : List (String × QuoteRow))
    (symbols : List String) :
    (get_realtime_prices rt_data symbols).map (fun p => p.symbol)
      = symbols.filter (fun s => (findQuote rt_data s).isSome) := by
  induction symbols with
  | nil => rfl
  | cons s rest ih =>
      rcases hq : findQuote rt_data s with _ | row
      · simpa [get_realtime_prices, List.filterMap_cons, hq,
          List.filter_cons] using ih
      · simpa [get_realtime_prices, List.filterMap_cons, hq,
          List.filter_cons, mkPriceData] using ih

/-- The concrete provider table of the 3-of-5 scenario: rows exist for
`000001`, `600519`, `000002` only. -/
def sampleTable : List (String × QuoteRow) :=
  [("000001", ⟨"PAB", 10, 10, 11, 9, 8, 1000, 10000⟩),
   ("600519", ⟨"MT", 1500, 1490, 1510, 1480, 1400, 200, 300000⟩),
   ("000002", ⟨"VKE", 7, 7, 8, 6, 7, 500, 3500⟩)]

/-- C6: during market hours the price-refresh run appends one snapshot
and one history point for exactly the requested symbols present in the
provider response, in request order, skipping absent symbols; with a
5-symbol request of which 2 are missing from the response, snapshots
are written for the 3 present symbols.  (The job's `try`/`except`
structure makes the embedded run a total function: no error reaches
the scheduler.) -/
theorem price_refresh_partial_response (rt_data : List (String × QuoteRow))
    (symbols : List String) (st : PriceStore) (is_open : Bool)
    (h : is_open = true) :
    ((update_realtime_prices is_open rt_data symbols st).stock_prices.map
        (fun p => p.symbol)
      = st.stock_prices.map (fun p => p.symbol)
          ++ symbols.filter (fun s => (findQuote rt_data s).isSome)) ∧
    ((update_realtime_prices is_open rt_data symbols st).price_history.map
        (fun p => p.symbol)
      = st.price_history.map (fun p => p.symbol)
          ++ symbols.filter (fun s => (findQuote rt_data s).isSome)) ∧
    ((update_realtime_prices true sampleTable
        ["000001", "600519", "000002", "300750", "002415"]
        ⟨[], []⟩).stock_prices.map (fun p => p.symbol)
      = ["000001", "600519", "000002"]) := by
  subst h
  refine ⟨?_, ?_, by decide⟩
  · rw [update_realtime_prices_open]
    simp only [List.map_append, get_realtime_prices_symbols]
  · rw [update_realtime_prices_open]
    simp only [List.map_append, List.map_map]
    have hcomp : ((fun p => p.symbol) ∘ toHistoryPoint)
        = fun (p : PriceData) => p.symbol := rfl
    rw [hcomp, get_realtime_prices_symbols]

/-- Witness for C6: the theorem applied to the 3-of-5 scenario. -/
theorem price_refresh_partial_response_witness :
    (update_realtime_prices true sampleTable
        ["000001", "600519", "000002", "300750", "002415"]
        ⟨[], []⟩).stock_prices.map (fun p => p.symbol)
      = ["000001", "600519", "000002"] :=
  (price_refresh_partial_response sampleTable
      ["000001", "600519", "000002", "300750", "002415"]
      ⟨[], []⟩ true rfl).2.2

/-- C9: a quote row with previous close 0 yields `change_percent = 0`
in both the single and the batch fetcher; the division defining
`change_percent` is taken only under the guard `close_price != 0`. -/
theorem zero_prev_close_safe (symbol : String) (row : QuoteRow)
    (rt_data : List (String × QuoteRow)) (symbols : List String)
    (p : PriceData)
    (hzero : row.prev_close = 0) :
    ((mkPriceData symbol row).change_percent = 0) ∧
    (∀ row2 : QuoteRow, row2.prev_close ≠ 0 →
      (mkPriceData symbol row2).change_percent
        = (row2.latest_price - row2.prev_close) / row2.prev_close * 100) ∧
    (get_realtime_price rt_data symbol = some p → p.close_price = 0 →
      p.change_percent = 0) ∧
    (p ∈ get_realtime_prices rt_data symbols → p.close_price = 0 →
      p.change_percent = 0) := by
  refine ⟨?_, ?_, ?_, ?_⟩
  · simp [mkPriceData, hzero]
  · intro row2 h2
    simp [mkPriceData, h2]
  · intro hp hc
    unfold get_realtime_price at hp
    rcases hq : findQuote rt_data symbol with _ | row2
    · rw [hq] at hp
      simp at hp
    · rw [hq] at hp
      simp at hp
      rw [← hp] at hc ⊢
      simp [mkPriceData] at hc ⊢
      simp [hc]
  · intro hp hc
    unfold get_realtime_prices at hp
    rw [List.mem_filterMap] at hp
    obtain ⟨s, _, hs⟩ := hp
    rcases hq : findQuote rt_data s with _ | row2
    · rw [hq] at hs
      simp at hs
    · rw [hq] at hs
      simp at hs
      rw [← hs] at hc ⊢
      simp [mkPriceData] at hc ⊢
      simp [hc]

/-- Witness for C9: the theorem applied to a row whose previous close
is 0 sitting in a one-row provider table. -/
theorem zero_prev_close_safe_witness :
    (mkPriceData "000001" ⟨"PAB", 10, 10, 11, 9, 0, 1000, 10000⟩).change_percent
      = 0 :=
  (zero_prev_close_safe "000001" ⟨"PAB", 10, 10, 11, 9, 0, 1000, 10000⟩
      [] [] (mkPriceData "000001" ⟨"PAB", 10, 10, 11, 9, 0, 1000, 10000⟩)
      rfl).1

/-! ## Latest-price query (`DatabaseManager.get_latest_prices`)

The SQL joins `stock_prices` with `stock_info` on symbol (so snapshots
of symbols without an info row are dropped), keeps the rows whose
timestamp equals `MAX(timestamp)` over that symbol's rows, restricts to
`symbol IN (...)` when the `symbols` argument is a non-empty list
(Python `if symbols:`; `None` and `[]` both take the unrestricted
branch), and orders by `change_percent DESC`.  The joined-in `si.name`
column and the remaining price columns carry no logic and are left out
of the row model; `id` stands for the autoincrement primary key. -/

/-- A `stock_prices` row, restricted to the columns the query logic
reads. -/
structure SnapshotRow where
  id : Nat
  symbol : String
  change_percent : ℚ
  timestamp : Nat
deriving DecidableEq, Repr

/-- The correlated subquery `SELECT MAX(timestamp) FROM stock_prices
sp2 WHERE sp2.symbol = sp.symbol`; `none` is SQL NULL (no rows). -/
def maxTimestamp (stock_prices : List SnapshotRow) (s : String) :
    Option Nat :=
  ((stock_prices.filter (fun r => r.symbol = s)).map
    (fun r => r.timestamp)).max?

/-- The `ORDER BY sp.change_percent DESC` relation. -/
def snapGe (a b : SnapshotRow) : Prop :=
  b.change_percent ≤ a.change_percent

instance : DecidableRel snapGe :=
  fun a b => inferInstanceAs (Decidable (b.change_percent ≤ a.change_percent))

instance : IsTotal SnapshotRow snapGe :=
  ⟨fun a b => le_total b.change_percent a.change_percent⟩

instance : IsTrans SnapshotRow snapGe :=
  ⟨fun _ _ _ h1 h2 => le_trans h2 h1⟩

/-- Embeds `DatabaseManager.get_latest_prices`.  `stock_info` is the
set of symbols owning a `stock_info` row (its `symbol` column is
UNIQUE). -/
def get_latest_prices (stock_info : List String)
    (stock_prices : List SnapshotRow) (symbols : List String) :
    List SnapshotRow :=
  if symbols ≠ [] then
    List.insertionSort snapGe (stock_prices.filter (fun r =>
      decide (r.symbol ∈ symbols) && decide (r.symbol ∈ stock_info)
        && (maxTimestamp stock_prices r.symbol == some r.timestamp)))
  else
    List.insertionSort snapGe (stock_prices.filter (fun r =>
      decide (r.symbol ∈ stock_info)
        && (maxTimestamp stock_prices r.symbol == some r.timestamp)))

/-- Counterexample to C7: a requested symbol with no stored snapshot
yields no record at all (not one); a tie on the maximal timestamp
yields two records for one requested symbol; a requested symbol whose
snapshots lack a `stock_info` row also yields no record. -/
theorem latest_prices_counterexample :
    get_latest_prices ["000001"] [] ["000001"] = [] ∧
    (get_latest_prices ["000001"]
        [⟨1, "000001", 1, 5⟩, ⟨2, "000001", 2, 5⟩] ["000001"]).length = 2 ∧
    get_latest_prices [] [⟨1, "000001", 1, 5⟩] ["000001"] = [] := by
  refine ⟨by decide, by decide, by decide⟩

/-- C7 (amended): for a non-empty request, every requested symbol that
has at least one stored snapshot, whose snapshots carry pairwise
distinct timestamps, and for which a `stock_info` row exists,
contributes exactly one record — a stored snapshot of that symbol
achieving the maximal timestamp — and the result only contains
requested-and-latest stored rows, ordered by `change_percent`
descending.  Requested symbols with no snapshot (or no info row)
contribute nothing, and a timestamp tie contributes one record per
tied row. -/
theorem latest_prices_amended (stock_info : List String)
    (stock_prices : List SnapshotRow) (symbols : List String) (s : String)
    (hne : symbols ≠ [])
    (hs : s ∈ symbols)
    (hinfo : s ∈ stock_info)
    (hrow : ∃ r ∈ stock_prices, r.symbol = s)
    (hdistinct : ((stock_prices.filter (fun r => r.symbol = s)).map
        (fun r => r.timestamp)).Nodup) :
    ((get_latest_prices stock_info stock_prices symbols).countP
        (fun r => r.symbol = s) = 1) ∧
    ((get_latest_prices stock_info stock_prices symbols).all (fun r =>
        decide (r ∈ stock_prices) && decide (r.symbol ∈ symbols)
          && (maxTimestamp stock_prices r.symbol == some r.timestamp))
      = true) ∧
    List.Sorted snapGe (get_latest_prices stock_info stock_prices symbols) := by
  have hne' : symbols ≠ [] := hne
  unfold get_latest_prices
  rw [if_pos hne']
  set q : SnapshotRow → Bool := fun r =>
    decide (r.symbol ∈ symbols) && decide (r.symbol ∈ stock_info)
      && (maxTimestamp stock_prices r.symbol == some r.timestamp) with hq
  have hperm := List.perm_insertionSort snapGe (stock_prices.filter q)
  refine ⟨?_, ?_, List.sorted_insertionSort snapGe _⟩
  · rw [hperm.countP_eq, List.countP_filter]
    -- the combined predicate only depends on rows of symbol `s`
    have hcongr : List.countP
        (fun r => decide (r.symbol = s) && q r) stock_prices
        = List.countP (fun r => decide (r.symbol = s)
            && (maxTimestamp stock_prices s == some r.timestamp))
            stock_prices := by
      apply List.countP_congr
      intro r _
      by_cases hsym : r.symbol = s
      · simp [hq, hsym, hs, hinfo]
      · simp [hsym]
    rw [hcongr]
    -- reduce to counting the maximal timestamp among rows of symbol `s`
    have hsplit : List.countP (fun r => decide (r.symbol = s)
          && (maxTimestamp stock_prices s == some r.timestamp)) stock_prices
        = List.countP (fun r =>
            maxTimestamp stock_prices s == some r.timestamp)
            (stock_prices.filter (fun r => r.symbol = s)) := by
      rw [List.countP_filter]
      apply List.countP_congr
      intro r _
      by_cases hsym : r.symbol = s <;> simp [hsym, Bool.and_comm]
    rw [hsplit]
    rcases hmax : maxTimestamp stock_prices s with _ | m
    · exfalso
      obtain ⟨r, hrmem, hrsym⟩ := hrow
      unfold maxTimestamp at hmax
      rw [List.max?_eq_none_iff, List.map_eq_nil_iff] at hmax
      have hrf : r ∈ stock_prices.filter (fun r => r.symbol = s) := by
        rw [List.mem_filter]
        exact ⟨hrmem, by simp [hrsym]⟩
      rw [hmax] at hrf
      simp at hrf
    · have hm_mem : m ∈ (stock_prices.filter
          (fun r => r.symbol = s)).map (fun r => r.timestamp) := by
        unfold maxTimestamp at hmax
        exact List.max?_mem (fun a b => max_choice a b) hmax
      have hcnt : List.countP (fun r => some m == some r.timestamp)
            (stock_prices.filter (fun r => r.symbol = s))
          = List.count m ((stock_prices.filter
              (fun r => r.symbol = s)).map (fun r => r.timestamp)) := by
        rw [List.count, List.countP_map]
        apply List.countP_congr
        intro r _
        simp only [Function.comp_apply, beq_iff_eq, Option.some.injEq]
        exact eq_comm
      rw [hcnt]
      exact List.count_eq_one_of_mem hdistinct hm_mem
  · rw [List.all_eq_true]
    intro r hr
    rw [hperm.mem_iff, List.mem_filter] at hr
    obtain ⟨hmem, hpred⟩ := hr
    rw [hq] at hpred
    simp only [Bool.and_eq_true, decide_eq_true_eq] at hpred
    simp [hmem, hpred.1.1, hpred.2]

/-- Witness for the amended C7: two symbols, three snapshots, the
newer row of `000001` and the single row of `600519` are returned. -/
theorem latest_prices_amended_witness :
    ((get_latest_prices ["000001", "600519"]
        [⟨1, "000001", 1, 5⟩, ⟨2, "000001", 2, 9⟩, ⟨3, "600519", 3, 4⟩]
        ["000001", "600519"]).countP
        (fun r => r.symbol = "000001") = 1) ∧
    ((get_latest_prices ["000001", "600519"]
        [⟨1, "000001", 1, 5⟩, ⟨2, "000001", 2, 9⟩, ⟨3, "600519", 3, 4⟩]
        ["000001", "600519"]).all (fun r =>
        decide (r ∈ [(⟨1, "000001", 1, 5⟩ : SnapshotRow),
            ⟨2, "000001", 2, 9⟩, ⟨3, "600519", 3, 4⟩])
          && decide (r.symbol ∈ ["000001", "600519"])
          && (maxTimestamp
              [⟨1, "000001", 1, 5⟩, ⟨2, "000001", 2, 9⟩, ⟨3, "600519", 3, 4⟩]
              r.symbol == some r.timestamp)) = true) ∧
    List.Sorted snapGe (get_latest_prices ["000001", "600519"]
        [⟨1, "000001", 1, 5⟩, ⟨2, "000001", 2, 9⟩, ⟨3, "600519", 3, 4⟩]
        ["000001", "600519"]) :=
  latest_prices_amended ["000001", "600519"]
    [⟨1, "000001", 1, 5⟩, ⟨2, "000001", 2, 9⟩, ⟨3, "600519", 3, 4⟩]
    ["000001", "600519"] "000001"
    (by decide) (by decide) (by decide) (by decide) (by decide)

/-- C10: with an empty request list (Python `None` takes the same
branch), `get_latest_prices` returns the latest snapshot of every
symbol in the store rather than the empty sequence: it coincides with
requesting every stored symbol, its rows are exactly the stored
latest-per-symbol rows of symbols having an info row, and a one-row
store yields that row. -/
theorem empty_filter_selects_all (stock_info : List String)
    (stock_prices : List SnapshotRow) (r : SnapshotRow) :
    (get_latest_prices stock_info stock_prices [] =
      get_latest_prices stock_info stock_prices
        (stock_prices.map (fun q => q.symbol))) ∧
    (r ∈ get_latest_prices stock_info stock_prices [] ↔
      r ∈ stock_prices ∧ r.symbol ∈ stock_info ∧
        maxTimestamp stock_prices r.symbol = some r.timestamp) ∧
    (get_latest_prices ["000001"] [⟨1, "000001", 2, 7⟩] []
      = [⟨1, "000001", 2, 7⟩]) := by
  refine ⟨?_, ?_, by decide⟩
  · rcases hsp : stock_prices with _ | ⟨r0, rest⟩
    · rfl
    · unfold get_latest_prices
      rw [if_neg (by simp), if_pos (by simp)]
      congr 1
      apply List.filter_congr
      intro x hx
      have hx' : x.symbol ∈ (r0 :: rest).map (fun q => q.symbol) :=
        List.mem_map_of_mem (fun q => q.symbol) hx
      rw [decide_eq_true hx', Bool.true_and]
  · unfold get_latest_prices
    rw [if_neg (by simp)]
    rw [(List.perm_insertionSort snapGe _).mem_iff, List.mem_filter]
    simp [and_assoc]

/-! ## Retention sweep (`DataScheduler._daily_cleanup`)

Timestamps are modelled as integer seconds; `datetime.now() -
timedelta(days=30)` is `now - 30 * 86400`.  Each SQL `DELETE ... WHERE
ts < cutoff` removes exactly the rows below the cutoff, keeping the
rest in order. -/

/-- A `price_history` table row, restricted to the columns the sweep
reads (`id` is the autoincrement key, making rows distinguishable). -/
structure HistoryRow where
  id : Nat
  symbol : String
  timestamp : Int
deriving DecidableEq, Repr

/-- A `price_alerts` table row, as seen by the sweep. -/
structure AlertRow where
  id : Nat
  symbol : String
  triggered_at : Int
deriving DecidableEq, Repr

/-- Seconds in a day, the unit of `timedelta(days=n)`. -/
def SECONDS_PER_DAY : Int := 86400

/-- The two tables the sweep touches. -/
structure CleanupStore where
  price_history : List HistoryRow
  price_alerts : List AlertRow
deriving DecidableEq, Repr

/-- Embeds `DataScheduler._daily_cleanup`: delete history rows with
`timestamp < now - 30 days` and alert rows with `triggered_at < now -
7 days`; a `DELETE` keeps exactly the rows failing its condition, in
stored order. -/
def daily_cleanup (now : Int) (st : CleanupStore) : CleanupStore :=
  let thirty_days_ago := now - 30 * SECONDS_PER_DAY
  let seven_days_ago := now - 7 * SECONDS_PER_DAY
  { price_history :=
      st.price_history.filter (fun r => ¬ r.timestamp < thirty_days_ago),
    price_alerts :=
      st.price_alerts.filter (fun r => ¬ r.triggered_at < seven_days_ago) }

/-- C8: one sweep at time `now` keeps a history row iff it is not
older than 30 days and an alert row iff it is not older than 7 days
(so exactly the older rows are deleted), preserves the kept rows with
their multiplicities and order (younger rows unchanged), and a second
sweep at the same time with no new data deletes nothing. -/
theorem retention_sweep_spec (now : Int) (st : CleanupStore)
    (h : HistoryRow) (a : AlertRow) :
    (h ∈ (daily_cleanup now st).price_history ↔
      h ∈ st.price_history ∧ ¬ h.timestamp < now - 30 * 86400) ∧
    (a ∈ (daily_cleanup now st).price_alerts ↔
      a ∈ st.price_alerts ∧ ¬ a.triggered_at < now - 7 * 86400) ∧
    ((daily_cleanup now st).price_history.count h =
      if ¬ h.timestamp < now - 30 * 86400
      then st.price_history.count h else 0) ∧
    ((daily_cleanup now st).price_alerts.count a =
      if ¬ a.triggered_at < now - 7 * 86400
      then st.price_alerts.count a else 0) ∧
    daily_cleanup now (daily_cleanup now st) = daily_cleanup now st := by
  refine ⟨?_, ?_, ?_, ?_, ?_⟩
  · simp [daily_cleanup, List.mem_filter, SECONDS_PER_DAY]
  · simp [daily_cleanup, List.mem_filter, SECONDS_PER_DAY]
  · simp only [daily_cleanup, SECONDS_PER_DAY, List.count]
    rw [List.countP_filter]
    split
    · next hk =>
        apply List.countP_congr
        intro r _
        by_cases hr : r = h
        · subst hr
          simp
          omega
        · simp [hr, Ne.symm hr]
    · next hk =>
        rw [List.countP_eq_zero]
        intro r hrmem
        by_cases hr : r = h
        · subst hr
          simp
          omega
        · simp [hr, Ne.symm hr]
  · simp only [daily_cleanup, SECONDS_PER_DAY, List.count]
    rw [List.countP_filter]
    split
    · next hk =>
        apply List.countP_congr
        intro r _
        by_cases hr : r = a
        · subst hr
          simp
          omega
        · simp [hr, Ne.symm hr]
    · next hk =>
        rw [List.countP_eq_zero]
        intro r hrmem
        by_cases hr : r = a
        · subst hr
          simp
          omega
        · simp [hr, Ne.symm hr]
  · simp [daily_cleanup, List.filter_filter]

/-- Witness for C8: a two-row store at `now = 40` days (in seconds):
the 35-day-old history row is deleted, the fresh one kept. -/
theorem retention_sweep_spec_witness :
    ((⟨1, "000001", 5 * 86400⟩ : HistoryRow) ∈
        (daily_cleanup (40 * 86400)
          ⟨[⟨1, "000001", 5 * 86400⟩, ⟨2, "000001", 39 * 86400⟩], []⟩).price_history ↔
      (⟨1, "000001", 5 * 86400⟩ : HistoryRow) ∈
          [(⟨1, "000001", 5 * 86400⟩ : HistoryRow), ⟨2, "000001", 39 * 86400⟩] ∧
        ¬ (5 * 86400 : Int) < 40 * 86400 - 30 * 86400) :=
  (retention_sweep_spec (40 * 86400)
      ⟨[⟨1, "000001", 5 * 86400⟩, ⟨2, "000001", 39 * 86400⟩], []⟩
      ⟨1, "000001", 5 * 86400⟩ ⟨1, "000001", 0⟩).1

end StockDB
